import Mathlib

/-!
Verification of the transaction synchronization core of `ynab-gocardless-sync`.

The Python sources are shallowly embedded:
- `src/ynab_sync/sync.py`: `prepare_ynab_transactions`, `sync_transactions`
- `src/ynab_sync/api.py`: `log_and_raise_for_status`, `GoCardlessClient`
  (state and the lazy token-acquisition guard of its operations)
- `src/ynab_sync/config.py`: `update_last_sync`

Network I/O is modelled by oracles (`SyncEnv`, `GCEnv`) supplying the
responses each HTTP call would yield; observable behaviour (HTTP calls
issued, CLI echoes, log records) is collected in explicit traces.
Python `float` parsing of decimal amount strings is modelled exactly: a
decimal literal is parsed into its sign / digits / scale (`DecimalLit`),
whose rational value `DecimalLit.val` stands for the parsed float.  The
milliunit computation `int(abs(float(a)) * 1000)` is carried out in exact
integer arithmetic; the lemma `prepOne_amount_eq` proves it equal to
truncation (`pyInt`) of the rational `|val| * 1000`.  This agrees with
CPython on every amount string whose value times 1000 is exactly
representable in binary floating point, in particular on all inputs used
in the theorems below.
-/

deriving instance DecidableEq for Except

/-- One booked transaction as returned by the bank-data API
(`{bookingDate, transactionAmount: {amount, currency}, transactionId,
debtorName?, remittanceInformationUnstructured?}`).  Optional JSON keys are
`Option`; `transactionAmount` is flattened to its decimal `amount` string
(the `currency` field is never read by the core). -/
structure BookedTxn where
  bookingDate : String
  transactionAmount : String
  transactionId : String
  debtorName : Option String
  remittanceInformationUnstructured : Option String
  deriving Repr, DecidableEq

/-- One transaction in the budgeting-API request shape built by
`prepare_ynab_transactions` (sync.py lines 23-29). -/
structure YnabTxn where
  account_id : String
  date : String
  amount : Int
  payee_name : String
  import_id : String
  deriving Repr, DecidableEq

/-- A parsed decimal literal `[+-]?ddd[.ddd]`: sign, the digits read as one
integer (ignoring the dot), and the number of fractional digits.  Its
numeric value is `DecimalLit.val`. -/
structure DecimalLit where
  neg : Bool
  num : Nat
  frac : Nat
  deriving Repr, DecidableEq

/-- The rational value of a parsed decimal literal. -/
def DecimalLit.val (d : DecimalLit) : ℚ :=
  (if d.neg then -1 else 1) * (d.num : ℚ) / (10 : ℚ) ^ d.frac

/-- Numeric value of a digit list, most significant first. -/
def digitsVal (cs : List Char) : Nat :=
  cs.foldl (fun a c => a * 10 + (c.toNat - 48)) 0

/-- Model of Python `float(s)` restricted to plain decimal literals
`[+-]?digits[.digits]`: the exactly parsed literal, `none` when `float`
would raise `ValueError`.  (Exponent/`inf`/`nan` forms never occur as bank
amounts and are outside the model's domain.) -/
def parseDecimal (s : String) : Option DecimalLit :=
  let go : Bool → List Char → Option DecimalLit := fun neg cs =>
    let (ip, rest) := cs.span (· ≠ '.')
    let fp := match rest with
      | [] => []
      | _ :: tl => tl
    if ip.all Char.isDigit ∧ fp.all Char.isDigit ∧ (ip ≠ [] ∨ fp ≠ []) then
      some ⟨neg, digitsVal ip * 10 ^ fp.length + digitsVal fp, fp.length⟩
    else
      none
  match s.data with
  | '-' :: cs => go true cs
  | '+' :: cs => go false cs
  | cs => go false cs

/-- Model of Python `int(q)` on a number: truncation toward zero. -/
def pyInt (q : ℚ) : Int :=
  if 0 ≤ q then ⌊q⌋ else -⌊-q⌋

/-- The body of the `for txn in ...booked` loop of
`prepare_ynab_transactions` (sync.py lines 18-29) for one booked
transaction: `float` the amount string (`none` = `ValueError`); lines
20-21 replace a negative amount by its absolute value (discarding the
sign); line 26 converts to milliunits with `int(amount * 1000)`, computed
here in exact integer arithmetic (`prepOne_amount_eq` proves it equals
`pyInt (|val| * 1000)`); line 27 resolves the payee with
`txn.get("debtorName", txn.get("remittanceInformationUnstructured",
"Unknown"))`; line 28 builds `import_id = "gc:" + transactionId`. -/
def prepOne (account_id : String) (txn : BookedTxn) : Option YnabTxn :=
  (parseDecimal txn.transactionAmount).map fun d =>
    { account_id := account_id
      date := txn.bookingDate
      amount := ((d.num * 1000) / 10 ^ d.frac : Nat)
      payee_name :=
        txn.debtorName.getD (txn.remittanceInformationUnstructured.getD "Unknown")
      import_id := "gc:" ++ txn.transactionId }

/-- `prepare_ynab_transactions` (sync.py lines 9-31) on the booked list
extracted by `bank_transactions.get("transactions", {}).get("booked", [])`:
the `for txn in ...booked` loop appending one converted transaction per
booked item.  `none` models the `ValueError` Python would raise from
`float` on a malformed amount string, aborting the loop. -/
def prepare_ynab_transactions (booked : List BookedTxn) (account_id : String) :
    Option (List YnabTxn) :=
  match booked with
  | [] => some []
  | txn :: rest =>
    match prepOne account_id txn, prepare_ynab_transactions rest account_id with
    | some y, some ys => some (y :: ys)
    | _, _ => none

/-! ## HTTP layer (`src/ynab_sync/api.py`) -/

/-- An `httpx.Response` as observed by `log_and_raise_for_status`
(api.py lines 8-26): status, reason phrase, request URL/method/headers,
response headers and body text. -/
structure Response where
  status : Nat
  reasonPhrase : String
  url : String
  method : String
  requestHeaders : List (String × String)
  responseHeaders : List (String × String)
  text : String
  deriving Repr, DecidableEq

/-- The payload of an `httpx.HTTPStatusError`: the exception carries the
request and response objects, hence the status code, URL, method and
response body are all recoverable from it. -/
structure HTTPStatusError where
  status : Nat
  url : String
  method : String
  body : String
  deriving Repr, DecidableEq

/-- One record emitted by `logger.error` in `log_and_raise_for_status`
(api.py lines 17-24): exactly the values interpolated into the message
f-string, at error severity. -/
structure LogRecord where
  status : Nat
  reasonPhrase : String
  requestUrl : String
  requestMethod : String
  requestHeaders : List (String × String)
  responseHeaders : List (String × String)
  responseContent : String
  deriving Repr, DecidableEq

/-- `httpx` `Response.is_success`: status in the 2xx range.
`Response.raise_for_status` raises `HTTPStatusError` exactly when this is
false. -/
def Response.is_success (r : Response) : Bool :=
  decide (200 ≤ r.status ∧ r.status < 300)

/-- `log_and_raise_for_status` (api.py lines 8-26): call
`response.raise_for_status()`; on `HTTPStatusError`, log the error with
status / reason / request URL / request method / request headers /
response headers / response content at error severity, then re-raise.
Returns the error-severity log records emitted together with the outcome
(`.error` = the exception propagates to the caller). -/
def log_and_raise_for_status (r : Response) :
    List LogRecord × Except HTTPStatusError Unit :=
  if r.is_success then
    ([], .ok ())
  else
    ([⟨r.status, r.reasonPhrase, r.url, r.method, r.requestHeaders,
        r.responseHeaders, r.text⟩],
      .error ⟨r.status, r.url, r.method, r.text⟩)

/-! ### GoCardlessClient state and lazy token acquisition -/

/-- Python dict assignment `headers[k] = v`: replace the value of an
existing key, else append the new pair. -/
def setHeader (hs : List (String × String)) (k v : String) :
    List (String × String) :=
  if hs.any (fun p => p.1 = k) then
    hs.map (fun p => if p.1 = k then (k, v) else p)
  else
    hs ++ [(k, v)]

/-- Mutable state of a `GoCardlessClient` instance (api.py lines 52-58):
credentials, the lazily acquired `access_token` (initially `None`) and the
`headers` dict (initially only `Content-Type`). -/
structure GCState where
  secret_id : String
  secret_key : String
  access_token : Option String
  headers : List (String × String)
  deriving Repr, DecidableEq

/-- `GoCardlessClient.__init__` (api.py lines 52-58). -/
def GCState.init (secret_id secret_key : String) : GCState :=
  { secret_id := secret_id
    secret_key := secret_key
    access_token := none
    headers := [("Content-Type", "application/json")] }

/-- Python truthiness of `not self.access_token` (api.py line 79 etc.):
true for `None` and for the empty string. -/
def tokenFalsy : Option String → Bool
  | none => true
  | some t => t = ""

/-- Observable actions of a `GoCardlessClient`: the token POST, a data
GET with the headers it is sent with, and the error-log records emitted by
`log_and_raise_for_status`. -/
inductive GCEvent
  | tokenPost (headers : List (String × String))
  | httpGet (path : String) (headers : List (String × String))
  | logError (rec : LogRecord)
  deriving Repr, DecidableEq

/-- Oracle for the GoCardless HTTP exchanges: the `Response` each endpoint
would return, plus the relevant field of the parsed JSON body
(`response.json()` is modelled as this already-parsed payload). -/
structure GCEnv where
  tokenResponse : Response
  tokenAccess : String
  dataResponse : String → Response

/-- `GoCardlessClient.get_access_token` (api.py lines 60-75): POST to
`/token/new/` with the current headers, run `log_and_raise_for_status`,
then store `data["access"]` in `self.access_token` and set the
`Authorization` header for all subsequent calls.  Returns the event
trace, and on success the token together with the updated client state. -/
def get_access_token (env : GCEnv) (s : GCState) :
    List GCEvent × Except HTTPStatusError (String × GCState) :=
  let (logs, chk) := log_and_raise_for_status env.tokenResponse
  let evs := GCEvent.tokenPost s.headers :: logs.map GCEvent.logError
  match chk with
  | .error e => (evs, .error e)
  | .ok _ =>
    let tok := env.tokenAccess
    (evs, .ok (tok,
      { s with
        access_token := some tok
        headers := setHeader s.headers "Authorization" ("Bearer " ++ tok) }))

/-- The `if not self.access_token: await self.get_access_token()` guard
repeated verbatim at the head of every authenticated `GoCardlessClient`
operation (api.py lines 79-80, 99-100, 128-129, 155-156, 168-169,
181-182, 195-196). -/
def ensureToken (env : GCEnv) (s : GCState) :
    List GCEvent × Except HTTPStatusError GCState :=
  if tokenFalsy s.access_token then
    let (evs, r) := get_access_token env s
    (evs, r.map (fun p => p.2))
  else
    ([], .ok s)

/-- An authenticated GET operation of `GoCardlessClient` at a given path:
the token guard, then the GET with the instance's current headers, then
`log_and_raise_for_status` on the response.  `get_account_transactions`
(api.py lines 166-177), `get_requisition` (153-164), `get_institutions`
(77-89), `get_account_details` (179-190) and `get_account_balances`
(192-203) are all instances of this shape. -/
def gcAuthedGet (env : GCEnv) (s : GCState) (path : String) :
    List GCEvent × Except HTTPStatusError (Response × GCState) :=
  let (evs, r) := ensureToken env s
  match r with
  | .error e => (evs, .error e)
  | .ok s' =>
    let resp := env.dataResponse path
    let (logs, chk) := log_and_raise_for_status resp
    let evs' := evs ++ GCEvent.httpGet path s'.headers :: logs.map GCEvent.logError
    match chk with
    | .error e => (evs', .error e)
    | .ok _ => (evs', .ok (resp, s'))

/-- `GoCardlessClient.get_account_transactions` (api.py lines 166-177).
Note the source sends **no** `date_from` query parameter and accepts no
such argument. -/
def GoCardlessClient.get_account_transactions (env : GCEnv) (s : GCState)
    (account_id : String) :
    List GCEvent × Except HTTPStatusError (Response × GCState) :=
  gcAuthedGet env s ("accounts/" ++ account_id ++ "/transactions/")

/-- `GoCardlessClient.get_requisition` (api.py lines 153-164). -/
def GoCardlessClient.get_requisition (env : GCEnv) (s : GCState)
    (requisition_id : String) :
    List GCEvent × Except HTTPStatusError (Response × GCState) :=
  gcAuthedGet env s ("requisitions/" ++ requisition_id ++ "/")

/-! ## Sync engine (`src/ynab_sync/sync.py`, `src/ynab_sync/config.py`)

`sync_transactions` is embedded with its client calls abstracted as
oracle lookups (`SyncEnv`): each lookup yields what the corresponding
`GoCardlessClient` / `YNABClient` coroutine would return, `.error e`
standing for a raised `HTTPStatusError`.  The persisted configuration
document is threaded explicitly: the pass starts from the stored
`Config` (`load_config`) and returns the stored `Config` after the pass
(`save_config` / `update_last_sync` are the only writers). -/

/-- The `ynab` section of the configuration document. -/
structure YnabConfig where
  api_key : String
  budget_id : String
  deriving Repr, DecidableEq

/-- The `gocardless` section of the configuration document;
`requisition_id = none` models the key being absent. -/
structure GoCardlessConfig where
  secret_id : String
  secret_key : String
  redirect_url : String
  institution_id : String
  requisition_id : Option String
  deriving Repr, DecidableEq

/-- The configuration document (config.py / §6): the `last_sync`
watermark string, the two credential sections and the ordered
`account_mappings` dict (association list, Python dicts preserve
insertion order). -/
structure Config where
  last_sync : String
  ynab : YnabConfig
  gocardless : GoCardlessConfig
  account_mappings : List (String × String)
  deriving Repr, DecidableEq

/-- `update_last_sync` (config.py lines 62-66): reload the stored config,
set `last_sync` to today's date and save it back. `today` stands for
`datetime.now(UTC).date().isoformat()`. -/
def update_last_sync (today : String) (stored : Config) : Config :=
  { stored with last_sync := today }

/-- Response of `POST /requisitions/` (fields read by `sync_transactions`:
`id` and `link`). -/
structure CreatedRequisition where
  id : String
  link : String
  deriving Repr, DecidableEq

/-- Response of `GET /requisitions/{id}/` as read by `sync_transactions`:
its `accounts` list (`[]` models both an empty and an absent list, the
two cases `requisition.get("accounts")` treats as falsy). -/
structure Requisition where
  accounts : List String
  deriving Repr, DecidableEq

/-- Result of `GoCardlessClient.get_account_transactions` as tested by
`if not transactions` (sync.py line 83): `emptyDict` is the falsy `{}`;
`withBooked bs` is any truthy response dict whose
`.get("transactions", {}).get("booked", [])` is `bs`. -/
inductive FetchResult
  | emptyDict
  | withBooked (booked : List BookedTxn)
  deriving Repr, DecidableEq

/-- The booked list `prepare_ynab_transactions` extracts from a fetch
result. -/
def FetchResult.booked : FetchResult → List BookedTxn
  | .emptyDict => []
  | .withBooked bs => bs

/-- Python falsiness of the fetched dict (`if not transactions`). -/
def FetchResult.falsy : FetchResult → Bool
  | .emptyDict => true
  | .withBooked _ => false

/-- Response of `YNABClient.create_transactions` as read by
`sync_transactions`: the `transaction_ids` list of server-confirmed
created transactions (`[]` models both an empty and an absent list,
per `result.get("transaction_ids", [])`). -/
structure CreateResult where
  transaction_ids : List String
  deriving Repr, DecidableEq

/-- Errors that abort a sync pass: a raised `HTTPStatusError` from a
client call, or the `ValueError` `float` raises on a malformed amount
string inside `prepare_ynab_transactions`. -/
inductive SyncError
  | http (e : HTTPStatusError)
  | valueError
  deriving Repr, DecidableEq

/-- Observable actions of one sync pass: client calls issued (a fetch
records the `date_from` bound it is issued with, `none` = no bound),
CLI echoes, and the watermark write. -/
inductive Event
  | createRequisitionCall (redirect_url institution_id : String)
  | getRequisitionCall (requisition_id : String)
  | fetchTxns (account_id : String) (date_from : Option String)
  | createTxns (budget_id : String) (txns : List YnabTxn)
  | echo (msg : String)
  | updateLastSyncCall
  deriving Repr, DecidableEq

/-- Oracle for the client calls `sync_transactions` performs, and for
`datetime.now` (`today`).  `.error e` models the coroutine raising an
`HTTPStatusError e`. -/
structure SyncEnv where
  createRequisition : String → String → Except HTTPStatusError CreatedRequisition
  getRequisition : String → Except HTTPStatusError Requisition
  getAccountTransactions : String → Except HTTPStatusError FetchResult
  createTransactions : String → List YnabTxn → Except HTTPStatusError CreateResult
  today : String

/-- The result value of `sync_transactions`: `{"added": total_added}`. -/
structure SyncResult where
  added : Nat
  deriving Repr, DecidableEq

/-- One iteration of the `for bank_account_id, ynab_account_id in
account_mappings.items()` loop (sync.py lines 77-99): the warning-skip
for accounts missing from the requisition, the unbounded fetch (the
source passes no `date_from`), the two empty-skips, and the submission.
Returns the events of this iteration and the amount the iteration adds to
`total_added` (`.error` = the iteration raises, aborting the pass). -/
def processAccount (env : SyncEnv) (budget_id : String)
    (reqAccounts : List String) (entry : String × String) :
    List Event × Except SyncError Nat :=
  let (bank_account_id, ynab_account_id) := entry
  if bank_account_id ∉ reqAccounts then
    ([.echo ("Warning: Bank account " ++ bank_account_id ++
        " not found in current session")], .ok 0)
  else
    match env.getAccountTransactions bank_account_id with
    | .error e => ([.fetchTxns bank_account_id none], .error (.http e))
    | .ok transactions =>
      let evs := [Event.fetchTxns bank_account_id none]
      if transactions.falsy then
        (evs, .ok 0)
      else
        match prepare_ynab_transactions transactions.booked ynab_account_id with
        | none => (evs, .error .valueError)
        | some ynab_transactions =>
          if ynab_transactions.isEmpty then
            (evs, .ok 0)
          else
            match env.createTransactions budget_id ynab_transactions with
            | .error e =>
              (evs ++ [.createTxns budget_id ynab_transactions], .error (.http e))
            | .ok result =>
              (evs ++ [.createTxns budget_id ynab_transactions],
                .ok result.transaction_ids.length)

/-- The account loop of `sync_transactions` (sync.py lines 76-99) over the
remaining mapping entries, accumulating `total_added`.  An `.error`
aborts the remaining iterations, keeping the events up to the failure. -/
def syncLoop (env : SyncEnv) (budget_id : String) (reqAccounts : List String) :
    List (String × String) → List Event × Except SyncError Nat
  | [] => ([], .ok 0)
  | entry :: rest =>
    let (evs, r) := processAccount env budget_id reqAccounts entry
    match r with
    | .error e => (evs, .error e)
    | .ok n =>
      let (evs', r') := syncLoop env budget_id reqAccounts rest
      (evs ++ evs', match r' with
        | .error e => .error e
        | .ok m => .ok (n + m))

/-- Everything observable about one sync pass: its return value or raised
error, the configuration document as persisted after the pass, and the
event trace. -/
structure SyncOutcome where
  result : Except SyncError SyncResult
  stored : Config
  events : List Event

/-- `sync_transactions` (sync.py lines 33-106), starting from the stored
configuration document `stored` (what `load_config` returns).  Line 45
parses `config["last_sync"]` with `datetime.fromisoformat` into a local
that is never read again (the possible `ValueError` on a malformed
watermark is not modelled; no claim depends on it).  The
requisition-creation branch (lines 48-60) saves the new requisition id
and returns early; lines 65-73 are the no-accounts / no-mappings early
returns; lines 76-99 are `syncLoop`; on success line 102 runs
`update_last_sync`. -/
def sync_transactions (env : SyncEnv) (stored : Config) : SyncOutcome :=
  let config := stored
  match config.gocardless.requisition_id with
  | none =>
    match env.createRequisition config.gocardless.redirect_url
        config.gocardless.institution_id with
    | .error e =>
      ⟨.error (.http e), stored,
        [.createRequisitionCall config.gocardless.redirect_url
          config.gocardless.institution_id]⟩
    | .ok requisition =>
      let config' := { config with
        gocardless := { config.gocardless with requisition_id := some requisition.id } }
      ⟨.ok ⟨0⟩, config',
        [.createRequisitionCall config.gocardless.redirect_url
            config.gocardless.institution_id,
          .echo ("\nPlease complete authentication by visiting: " ++ requisition.link),
          .echo "After authentication, run this command again to sync transactions."]⟩
  | some requisition_id =>
    match env.getRequisition requisition_id with
    | .error e => ⟨.error (.http e), stored, [.getRequisitionCall requisition_id]⟩
    | .ok requisition =>
      if requisition.accounts.isEmpty then
        ⟨.ok ⟨0⟩, stored,
          [.getRequisitionCall requisition_id,
            .echo "No accounts found. Please complete authentication first."]⟩
      else if config.account_mappings.isEmpty then
        ⟨.ok ⟨0⟩, stored,
          [.getRequisitionCall requisition_id,
            .echo "No account mappings found. Please run 'ynab-sync map-accounts' first."]⟩
      else
        let (evs, r) := syncLoop env config.ynab.budget_id requisition.accounts
          config.account_mappings
        match r with
        | .error e =>
          ⟨.error e, stored, Event.getRequisitionCall requisition_id :: evs⟩
        | .ok total_added =>
          ⟨.ok ⟨total_added⟩, update_last_sync env.today stored,
            Event.getRequisitionCall requisition_id :: evs ++ [.updateLastSyncCall]⟩

/-! ## Supporting lemmas -/

/-- Per-entry count of server-confirmed created transaction identifiers:
what a loop iteration adds to `total_added` (0 for skipped entries and
for an iteration that raises). -/
def confirmedCount (env : SyncEnv) (budget_id : String)
    (reqAccounts : List String) (entry : String × String) : Nat :=
  match (processAccount env budget_id reqAccounts entry).2 with
  | .ok n => n
  | .error _ => 0

/-! ## Claim theorems -/

/-- The spec's three payee examples as one booked batch. -/
def payeeDemoBatch : List BookedTxn :=
  [⟨"2023-01-01", "100.50", "t1", some "John Doe", some "Payment for services"⟩,
    ⟨"2023-01-02", "-50.25", "t2", none, some "Grocery Store"⟩,
    ⟨"2023-01-03", "1.00", "t3", none, none⟩]

/-- Normalization of `payeeDemoBatch` for account `"acct"`. -/
def payeeDemoOut : List YnabTxn :=
  [⟨"acct", "2023-01-01", 100500, "John Doe", "gc:t1"⟩,
    ⟨"acct", "2023-01-02", 50250, "Grocery Store", "gc:t2"⟩,
    ⟨"acct", "2023-01-03", 1000, "Unknown", "gc:t3"⟩]

/-- A concrete 404 from the token endpoint. -/
def resp404 : Response :=
  ⟨404, "Not Found", "https://bankaccountdata.gocardless.com/api/v2/token/new/",
    "POST", [("Content-Type", "application/json")], [("Server", "x")], "detail gone"⟩

/-- A configuration with requisition "rid" established and bank account
"b1" mapped to YNAB account "y1". -/
def demoConfig : Config :=
  ⟨"2023-01-01", ⟨"key", "budget1"⟩,
    ⟨"sid", "skey", "http://localhost", "inst1", some "rid"⟩, [("b1", "y1")]⟩

/-- Oracle: the requisition links "b1"; fetching "b1" yields one booked
transaction; submission confirms two created identifiers. -/
def demoEnv : SyncEnv :=
  { createRequisition := fun _ _ => .error ⟨500, "u", "POST", "not reached"⟩
    getRequisition := fun _ => .ok ⟨["b1"]⟩
    getAccountTransactions := fun _ =>
      .ok (.withBooked [⟨"2023-01-01", "100.50", "t1", some "John Doe", none⟩])
    createTransactions := fun _ _ => .ok ⟨["id1", "id2"]⟩
    today := "2023-02-01" }

/-- The linked bank account "acct_x" mapped to the sentinel "unmapped". -/
def unmappedConfig : Config :=
  ⟨"2023-01-01", ⟨"key", "budget1"⟩,
    ⟨"sid", "skey", "http://localhost", "inst1", some "rid"⟩,
    [("acct_x", "unmapped")]⟩

/-- Oracle for the unmapped scenario: the requisition links "acct_x";
its fetch yields no transactions. -/
def unmappedEnv : SyncEnv :=
  { createRequisition := fun _ _ => .error ⟨500, "u", "POST", "not reached"⟩
    getRequisition := fun _ => .ok ⟨["acct_x"]⟩
    getAccountTransactions := fun _ => .ok .emptyDict
    createTransactions := fun _ _ => .ok ⟨[]⟩
    today := "2023-02-01" }

/-- Oracle whose budgeting submission fails with a 500. -/
def failingCreateEnv : SyncEnv :=
  { createRequisition := fun _ _ => .error ⟨500, "u", "POST", "not reached"⟩
    getRequisition := fun _ => .ok ⟨["b1"]⟩
    getAccountTransactions := fun _ =>
      .ok (.withBooked [⟨"2023-01-01", "100.50", "t1", some "John Doe", none⟩])
    createTransactions := fun _ _ =>
      .error ⟨500, "https://api.ynab.com/v1/budgets/budget1/transactions",
        "POST", "boom"⟩
    today := "2023-02-01" }

/-- Two mapped accounts b1 ↦ y1 and b2 ↦ y2. -/
def twoAccountConfig : Config :=
  ⟨"2023-01-01", ⟨"key", "budget1"⟩,
    ⟨"sid", "skey", "http://localhost", "inst1", some "rid"⟩,
    [("b1", "y1"), ("b2", "y2")]⟩

/-- Oracle with both accounts linked and fetchable; the submission for
y1's batch confirms two created identifiers, the one for y2's none. -/
def twoAccountEnv : SyncEnv :=
  { createRequisition := fun _ _ => .error ⟨500, "u", "POST", "not reached"⟩
    getRequisition := fun _ => .ok ⟨["b1", "b2"]⟩
    getAccountTransactions := fun a =>
      .ok (.withBooked [⟨"2023-01-01", "100.50", "t-" ++ a, some "John Doe", none⟩])
    createTransactions := fun _ txns =>
      .ok ⟨if txns.any (fun t => t.account_id = "y1") then ["id1", "id2"] else []⟩
    today := "2023-02-01" }

/-- A concrete GoCardless oracle: the token endpoint returns 200 with
token "tok123"; data endpoints return 200. -/
def demoGCEnv : GCEnv :=
  { tokenResponse := ⟨200, "OK",
      "https://bankaccountdata.gocardless.com/api/v2/token/new/", "POST",
      [("Content-Type", "application/json")], [], "token body"⟩
    tokenAccess := "tok123"
    dataResponse := fun p => ⟨200, "OK", p, "GET", [], [], "data body"⟩ }

/-- The demo client state after acquiring "tok123". -/
def demoGCStateAfter : GCState :=
  ⟨"sid", "skey", some "tok123",
    [("Content-Type", "application/json"), ("Authorization", "Bearer tok123")]⟩

/-! ## Theorems -/

/-- The integer milliunit amount of `prepOne` is exactly
`int(abs(float(a)) * 1000)` of the source: truncation toward zero of the
parsed value's absolute value times 1000. -/
theorem prepOne_amount_eq (d : DecimalLit) :
    (((d.num * 1000) / 10 ^ d.frac : Nat) : Int) = pyInt (|d.val| * 1000) := by
  have hval : |d.val| = (d.num : ℚ) / (10 : ℚ) ^ d.frac := by
    rcases d with ⟨neg, num, frac⟩
    cases neg <;>
      simp [DecimalLit.val, abs_div, abs_of_nonneg, Nat.cast_nonneg,
        pow_nonneg, neg_div, abs_neg]
  have hnn : (0 : ℚ) ≤ |d.val| * 1000 := by positivity
  rw [pyInt, if_pos hnn, hval]
  have : (d.num : ℚ) / (10 : ℚ) ^ d.frac * 1000 =
      ((d.num * 1000 : Nat) : ℚ) / ((10 ^ d.frac : Nat) : ℚ) := by
    push_cast
    ring
  rw [this, ← Int.natCast_floor_eq_floor (by positivity), Nat.floor_div_eq_div]

/-- Index-wise content of a successful `prepare_ynab_transactions` run:
one output entry per booked transaction, each produced by `prepOne`. -/
theorem prepare_ynab_transactions_sound (account_id : String)
    (booked : List BookedTxn) :
    ∀ out : List YnabTxn,
      prepare_ynab_transactions booked account_id = some out →
      out.length = booked.length ∧
      ∀ i (hb : i < booked.length) (ho : i < out.length),
        prepOne account_id (booked.get ⟨i, hb⟩) = some (out.get ⟨i, ho⟩) := by
  induction booked with
  | nil =>
    intro out h
    simp only [prepare_ynab_transactions, Option.some.injEq] at h
    subst h
    exact ⟨rfl, fun i hb _ => absurd hb (Nat.not_lt_zero i)⟩
  | cons txn rest ih =>
    intro out h
    simp only [prepare_ynab_transactions] at h
    cases hp : prepOne account_id txn with
    | none => rw [hp] at h; exact absurd h (by simp)
    | some y =>
      rw [hp] at h
      cases hr : prepare_ynab_transactions rest account_id with
      | none => rw [hr] at h; exact absurd h (by simp)
      | some ys =>
        rw [hr] at h
        simp only [Option.some.injEq] at h
        subst h
        obtain ⟨hlen, hidx⟩ := ih ys hr
        refine ⟨by simpa using hlen, ?_⟩
        intro i hb ho
        cases i with
        | zero => simpa using hp
        | succ n =>
          simpa using hidx n (by simpa using hb) (by simpa using ho)

/-- Python `headers[k] = v` makes `(k, v)` an entry of the dict. -/
theorem setHeader_mem (hs : List (String × String)) (k v : String) :
    (k, v) ∈ setHeader hs k v := by
  unfold setHeader
  split
  · rename_i hany
    simp only [List.any_eq_true, decide_eq_true_eq] at hany
    obtain ⟨p, hp, hpk⟩ := hany
    refine List.mem_map.mpr ⟨p, hp, ?_⟩
    simp [hpk]
  · exact List.mem_append_right _ (List.mem_singleton.mpr rfl)

/-- Shape of the events one loop iteration can emit: a CLI echo, a fetch
for this entry's bank account issued with no `date_from` bound, or a
batch submission to the configured budget. -/
theorem processAccount_events (env : SyncEnv) (budget_id : String)
    (reqAccounts : List String) (entry : String × String) :
    ∀ e ∈ (processAccount env budget_id reqAccounts entry).1,
      (∃ m, e = Event.echo m) ∨ e = Event.fetchTxns entry.1 none ∨
        ∃ ts, e = Event.createTxns budget_id ts := by
  rcases entry with ⟨bank, ynab⟩
  intro e he
  simp only [processAccount] at he
  split at he
  · simp only [List.mem_singleton] at he
    exact Or.inl ⟨_, he⟩
  · split at he
    · simp only [List.mem_singleton] at he
      exact Or.inr (Or.inl he)
    · split at he
      · simp only [List.mem_singleton] at he
        exact Or.inr (Or.inl he)
      · split at he
        · simp only [List.mem_singleton] at he
          exact Or.inr (Or.inl he)
        · split at he
          · simp only [List.mem_singleton] at he
            exact Or.inr (Or.inl he)
          · split at he <;>
            · simp only [List.mem_append, List.mem_singleton,
                List.mem_cons, List.not_mem_nil, or_false] at he
              rcases he with he | he
              · exact Or.inr (Or.inl he)
              · exact Or.inr (Or.inr ⟨_, he⟩)

/-- Every event the account loop emits comes from one of its mapping
entries. -/
theorem syncLoop_events (env : SyncEnv) (budget_id : String)
    (reqAccounts : List String) :
    ∀ entries : List (String × String),
      ∀ e ∈ (syncLoop env budget_id reqAccounts entries).1,
        ∃ entry ∈ entries, e ∈ (processAccount env budget_id reqAccounts entry).1 := by
  intro entries
  induction entries with
  | nil => intro e he; simp [syncLoop] at he
  | cons entry rest ih =>
    intro e he
    simp only [syncLoop] at he
    rcases hpe : processAccount env budget_id reqAccounts entry with ⟨evs1, r1⟩
    rw [hpe] at he
    cases r1 with
    | error err =>
      simp only at he
      exact ⟨entry, List.mem_cons_self .., by rw [hpe]; exact he⟩
    | ok n =>
      simp only [List.mem_append] at he
      rcases he with he | he
      · exact ⟨entry, List.mem_cons_self .., by rw [hpe]; exact he⟩
      · obtain ⟨entry', hmem, hin⟩ := ih e he
        exact ⟨entry', List.mem_cons_of_mem _ hmem, hin⟩

/-- A successfully completed account loop returns the sum of the
per-entry confirmed-identifier counts. -/
theorem syncLoop_sum (env : SyncEnv) (budget_id : String)
    (reqAccounts : List String) :
    ∀ (entries : List (String × String)) (evs : List Event) (n : Nat),
      syncLoop env budget_id reqAccounts entries = (evs, .ok n) →
      n = (entries.map (confirmedCount env budget_id reqAccounts)).sum := by
  intro entries
  induction entries with
  | nil =>
    intro evs n h
    simp only [syncLoop, Prod.mk.injEq, Except.ok.injEq] at h
    simp [← h.2]
  | cons entry rest ih =>
    intro evs n h
    simp only [syncLoop] at h
    rcases hpe : processAccount env budget_id reqAccounts entry with ⟨evs1, r1⟩
    rw [hpe] at h
    cases r1 with
    | error err => simp at h
    | ok m =>
      rcases hre : syncLoop env budget_id reqAccounts rest with ⟨evs2, r2⟩
      rw [hre] at h
      cases r2 with
      | error err => simp at h
      | ok m2 =>
        simp only [Prod.mk.injEq, Except.ok.injEq] at h
        rw [List.map_cons, List.sum_cons, ← h.2, ← ih evs2 m2 hre,
          confirmedCount, hpe]

/-- C1 (code bug): the claim (and the repository's own test
`test_prepare_ynab_transactions`, which asserts `-50250`) requires the
milliunit amount to preserve the sign of the decimal amount string, but
`prepare_ynab_transactions` replaces a negative amount by its absolute
value (sync.py lines 20-21): on the booked transaction with amount
`"-50.25"` the code produces `50250`, not `round(-50.25 * 1000) = -50250`. -/
theorem amount_sign_dropped_on_negative :
    prepare_ynab_transactions
        [⟨"2023-01-02", "-50.25", "t2", none, some "Grocery Store"⟩] "acct"
      = some [⟨"acct", "2023-01-02", 50250, "Grocery Store", "gc:t2"⟩]
    ∧ (50250 : Int) ≠ -50250 := by
  exact ⟨by decide, by decide⟩

/-- C5: for every raw booked transaction, the normalized payee name
follows the precedence debtor name → unstructured remittance text →
the literal "Unknown" (sync.py line 27). -/
theorem payee_precedence (account_id : String) (booked : List BookedTxn)
    (out : List YnabTxn)
    (h : prepare_ynab_transactions booked account_id = some out)
    (i : Nat) (hb : i < booked.length) (ho : i < out.length) :
    (∀ dn, (booked.get ⟨i, hb⟩).debtorName = some dn →
      (out.get ⟨i, ho⟩).payee_name = dn) ∧
    (∀ rt, (booked.get ⟨i, hb⟩).debtorName = none →
      (booked.get ⟨i, hb⟩).remittanceInformationUnstructured = some rt →
      (out.get ⟨i, ho⟩).payee_name = rt) ∧
    ((booked.get ⟨i, hb⟩).debtorName = none →
      (booked.get ⟨i, hb⟩).remittanceInformationUnstructured = none →
      (out.get ⟨i, ho⟩).payee_name = "Unknown") := by
  obtain ⟨-, hidx⟩ := prepare_ynab_transactions_sound account_id booked out h
  have hp := hidx i hb ho
  rw [prepOne, Option.map_eq_some'] at hp
  obtain ⟨d, -, hout⟩ := hp
  refine ⟨?_, ?_, ?_⟩
  · intro dn hdn
    rw [← hout]
    show (booked.get ⟨i, hb⟩).debtorName.getD _ = dn
    rw [hdn]
    rfl
  · intro rt hdn hrt
    rw [← hout]
    show (booked.get ⟨i, hb⟩).debtorName.getD _ = rt
    rw [hdn, hrt]
    rfl
  · intro hdn hrt
    rw [← hout]
    show (booked.get ⟨i, hb⟩).debtorName.getD _ = "Unknown"
    rw [hdn, hrt]
    rfl

/-- Witness for C5 at the spec's three examples: debtor plus remittance
gives "John Doe", remittance only gives "Grocery Store", neither gives
"Unknown". -/
theorem payee_precedence_witness :
    (payeeDemoOut.get ⟨0, by decide⟩).payee_name = "John Doe" ∧
    (payeeDemoOut.get ⟨1, by decide⟩).payee_name = "Grocery Store" ∧
    (payeeDemoOut.get ⟨2, by decide⟩).payee_name = "Unknown" :=
  have h : prepare_ynab_transactions payeeDemoBatch "acct" = some payeeDemoOut := by
    decide
  ⟨(payee_precedence "acct" payeeDemoBatch payeeDemoOut h 0 (by decide)
      (by decide)).1 "John Doe" (by decide),
    (payee_precedence "acct" payeeDemoBatch payeeDemoOut h 1 (by decide)
      (by decide)).2.1 "Grocery Store" (by decide) (by decide),
    (payee_precedence "acct" payeeDemoBatch payeeDemoOut h 2 (by decide)
      (by decide)).2.2 (by decide) (by decide)⟩

/-- C9: every transaction produced by normalization carries
`import_id = "gc:" + transactionId` of its raw transaction
(sync.py line 28). -/
theorem import_id_equals_gc_prefix (account_id : String)
    (booked : List BookedTxn) (out : List YnabTxn)
    (h : prepare_ynab_transactions booked account_id = some out)
    (i : Nat) (hb : i < booked.length) (ho : i < out.length) :
    (out.get ⟨i, ho⟩).import_id =
      "gc:" ++ (booked.get ⟨i, hb⟩).transactionId := by
  obtain ⟨-, hidx⟩ := prepare_ynab_transactions_sound account_id booked out h
  have hp := hidx i hb ho
  rw [prepOne, Option.map_eq_some'] at hp
  obtain ⟨d, -, hout⟩ := hp
  rw [← hout]

/-- Witness for C9: the transaction with id `"t2"` is submitted carrying
the import id `"gc:t2"`. -/
theorem import_id_witness :
    (payeeDemoOut.get ⟨1, by decide⟩).import_id = "gc:" ++ "t2" :=
  import_id_equals_gc_prefix "acct" payeeDemoBatch payeeDemoOut (by decide)
    1 (by decide) (by decide)

/-- C7: a non-2xx response makes `log_and_raise_for_status` emit exactly
one error-severity record carrying the full request/response context
(status, reason, URL, method, request headers, response headers, body)
and re-raise an `HTTPStatusError` carrying the status code and response
body; and no non-2xx response ever yields a non-raising (`.ok`) outcome. -/
theorem non2xx_logged_and_raised (r : Response)
    (h : ¬(200 ≤ r.status ∧ r.status < 300)) :
    (log_and_raise_for_status r).1 =
      [⟨r.status, r.reasonPhrase, r.url, r.method, r.requestHeaders,
        r.responseHeaders, r.text⟩] ∧
    (log_and_raise_for_status r).2 =
      .error ⟨r.status, r.url, r.method, r.text⟩ ∧
    (∀ r2 : Response, (log_and_raise_for_status r2).2 = .ok () →
      200 ≤ r2.status ∧ r2.status < 300) := by
  have hs : r.is_success = false := by
    simp only [Response.is_success, decide_eq_false_iff_not]
    exact h
  refine ⟨?_, ?_, ?_⟩
  · simp [log_and_raise_for_status, hs]
  · simp [log_and_raise_for_status, hs]
  · intro r2 h2
    by_contra hc
    have hs2 : r2.is_success = false := by
      simp only [Response.is_success, decide_eq_false_iff_not]
      exact hc
    simp [log_and_raise_for_status, hs2] at h2

/-- Witness for C7 at a concrete 404 response. -/
theorem non2xx_logged_and_raised_witness :
    (log_and_raise_for_status resp404).1 =
      [⟨404, "Not Found",
        "https://bankaccountdata.gocardless.com/api/v2/token/new/", "POST",
        [("Content-Type", "application/json")], [("Server", "x")], "detail gone"⟩] ∧
    (log_and_raise_for_status resp404).2 =
      .error ⟨404, "https://bankaccountdata.gocardless.com/api/v2/token/new/",
        "POST", "detail gone"⟩ ∧
    (∀ r2 : Response, (log_and_raise_for_status r2).2 = .ok () →
      200 ≤ r2.status ∧ r2.status < 300) :=
  non2xx_logged_and_raised resp404 (by decide)

/-- Every fetch the account loop issues carries no `date_from` bound. -/
theorem syncLoop_fetch_unbounded (env : SyncEnv) (budget_id : String)
    (reqAccounts : List String) (entries : List (String × String))
    (a : String) (d : Option String)
    (h : Event.fetchTxns a d ∈ (syncLoop env budget_id reqAccounts entries).1) :
    d = none := by
  obtain ⟨entry, -, hin⟩ := syncLoop_events env budget_id reqAccounts entries _ h
  rcases processAccount_events env budget_id reqAccounts entry _ hin with
      ⟨m, hm⟩ | hm | ⟨ts, hm⟩
  · exact absurd hm (by simp)
  · injection hm with h1 h2
  · exact absurd hm (by simp)

/-- C2 is violated by the code: every transaction fetch a sync pass
issues is sent with no `date_from` bound at all (sync.py line 82 passes
only the account id; `get_account_transactions` in api.py lines 166-177
accepts no `date_from` and sends no such query parameter), so no fetch is
bounded below by the `last_sync` watermark — the watermark is read at
line 45 and never used. -/
theorem fetch_issued_without_date_from (env : SyncEnv) (stored : Config)
    (a : String) (d : Option String)
    (h : Event.fetchTxns a d ∈ (sync_transactions env stored).events) :
    d = none := by
  simp only [sync_transactions] at h
  split at h
  · split at h
    · simp at h
    · simp at h
  · split at h
    · simp at h
    · split at h
      · simp at h
      · split at h
        · simp at h
        · split at h
          · simp at h
            exact syncLoop_fetch_unbounded env _ _ _ a d h
          · simp at h
            exact syncLoop_fetch_unbounded env _ _ _ a d h

/-- A sync pass either leaves the persisted configuration exactly as it
was, or returns successfully: the only writes are the requisition-id save
(which returns `{"added": 0}`) and the final `update_last_sync`. -/
theorem sync_stored_unchanged_or_ok (env : SyncEnv) (stored : Config) :
    (sync_transactions env stored).stored = stored ∨
    ∃ r, (sync_transactions env stored).result = .ok r := by
  rcases hout : sync_transactions env stored with ⟨res, st, evs⟩
  simp only [sync_transactions] at hout
  split at hout
  · split at hout
    · simp only [SyncOutcome.mk.injEq] at hout
      exact Or.inl hout.2.1.symm
    · simp only [SyncOutcome.mk.injEq] at hout
      exact Or.inr ⟨_, hout.1.symm⟩
  · split at hout
    · simp only [SyncOutcome.mk.injEq] at hout
      exact Or.inl hout.2.1.symm
    · split at hout
      · simp only [SyncOutcome.mk.injEq] at hout
        exact Or.inl hout.2.1.symm
      · split at hout
        · simp only [SyncOutcome.mk.injEq] at hout
          exact Or.inl hout.2.1.symm
        · split at hout
          · simp only [SyncOutcome.mk.injEq] at hout
            exact Or.inl hout.2.1.symm
          · simp only [SyncOutcome.mk.injEq] at hout
            exact Or.inr ⟨_, hout.1.symm⟩

/-- C4: a sync pass that raises leaves the persisted configuration — in
particular the `last_sync` watermark — exactly as it was before the pass
(the `update_last_sync` write at sync.py line 102 is only reached after
the loop completes); and an error raised inside the account loop is
propagated unchanged as the pass's outcome. -/
theorem error_preserves_watermark (env : SyncEnv) (stored : Config) :
    (∀ e, (sync_transactions env stored).result = .error e →
      (sync_transactions env stored).stored = stored ∧
      (sync_transactions env stored).stored.last_sync = stored.last_sync) ∧
    (∀ (rid : String) (req : Requisition) (err : SyncError),
      stored.gocardless.requisition_id = some rid →
      env.getRequisition rid = .ok req →
      req.accounts.isEmpty = false →
      stored.account_mappings.isEmpty = false →
      (syncLoop env stored.ynab.budget_id req.accounts
          stored.account_mappings).2 = .error err →
      (sync_transactions env stored).result = .error err) := by
  constructor
  · intro e he
    rcases sync_stored_unchanged_or_ok env stored with hst | ⟨r, hr⟩
    · exact ⟨hst, by rw [hst]⟩
    · rw [he] at hr
      exact absurd hr (by simp)
  · intro rid req err hrid hreq hacc hmap hloop
    simp [sync_transactions, hrid, hreq, hacc, hmap, hloop]

/-- C6: a successfully completed pass returns in `added` the sum over the
mapping entries of the number of server-confirmed created transaction
identifiers (`confirmedCount`; 0 for entries that were skipped rather
than submitted). -/
theorem added_equals_confirmed_sum (env : SyncEnv) (stored : Config)
    (rid : String) (req : Requisition) (r : SyncResult)
    (hrid : stored.gocardless.requisition_id = some rid)
    (hreq : env.getRequisition rid = .ok req)
    (hacc : req.accounts.isEmpty = false)
    (hmap : stored.account_mappings.isEmpty = false)
    (hres : (sync_transactions env stored).result = .ok r) :
    r.added = (stored.account_mappings.map
      (confirmedCount env stored.ynab.budget_id req.accounts)).sum := by
  rcases hloop : syncLoop env stored.ynab.budget_id req.accounts
      stored.account_mappings with ⟨evs, rr⟩
  cases rr with
  | error err =>
    simp [sync_transactions, hrid, hreq, hacc, hmap, hloop] at hres
  | ok n =>
    simp [sync_transactions, hrid, hreq, hacc, hmap, hloop] at hres
    rw [← hres, ← syncLoop_sum env stored.ynab.budget_id req.accounts
      stored.account_mappings evs n hloop]

/-- C10: a mapping entry whose bank account is not among the
requisition's linked accounts is skipped with exactly one warning echo —
no fetch and no submission happen for it — and the loop continues on the
remaining entries with an unchanged outcome (sync.py lines 78-80). -/
theorem missing_account_skipped (env : SyncEnv) (budget_id : String)
    (reqAccounts : List String) (bank ynab : String)
    (rest : List (String × String)) (h : bank ∉ reqAccounts) :
    syncLoop env budget_id reqAccounts ((bank, ynab) :: rest) =
      (Event.echo ("Warning: Bank account " ++ bank ++
          " not found in current session")
          :: (syncLoop env budget_id reqAccounts rest).1,
        (syncLoop env budget_id reqAccounts rest).2) := by
  have hpa : processAccount env budget_id reqAccounts (bank, ynab) =
      ([.echo ("Warning: Bank account " ++ bank ++
        " not found in current session")], .ok 0) := by
    simp [processAccount, h]
  rcases hre : syncLoop env budget_id reqAccounts rest with ⟨evs2, r2⟩
  simp only [syncLoop, hpa, hre]
  cases r2 <;> simp

/-- C8: every authenticated GoCardless operation (all of which run the
`gcAuthedGet` shape) acquires an access token before its data HTTP call
when none is held; it does not re-invoke acquisition when a (nonempty)
token is already present; and a successful acquisition stores the token
on the instance and sets the `Authorization` header that subsequent calls
are issued with. -/
theorem lazy_token_acquisition (env : GCEnv) (s : GCState) (path : String) :
    (tokenFalsy s.access_token = true →
      (gcAuthedGet env s path).1.head? = some (.tokenPost s.headers)) ∧
    (∀ t, s.access_token = some t → t ≠ "" →
      (∀ hs, GCEvent.tokenPost hs ∉ (gcAuthedGet env s path).1) ∧
      (gcAuthedGet env s path).1.head? = some (.httpGet path s.headers)) ∧
    (∀ tok s2, tok ≠ "" → (get_access_token env s).2 = .ok (tok, s2) →
      s2.access_token = some tok ∧
      ("Authorization", "Bearer " ++ tok) ∈ s2.headers ∧
      (gcAuthedGet env s2 path).1.head? = some (.httpGet path s2.headers)) := by
  refine ⟨?_, ?_, ?_⟩
  · intro hf
    simp only [gcAuthedGet, ensureToken, get_access_token, hf, if_true]
    rcases hlr : log_and_raise_for_status env.tokenResponse with ⟨logs, chk⟩
    cases chk with
    | error e => simp [Except.map]
    | ok u =>
      cases hchk : (log_and_raise_for_status (env.dataResponse path)).2 <;>
        simp [Except.map, hchk]
  · intro t ht hne
    have hf : tokenFalsy s.access_token = false := by
      simp [tokenFalsy, ht, hne]
    constructor
    · intro hs
      simp only [gcAuthedGet, ensureToken, hf]
      rcases hlr : log_and_raise_for_status (env.dataResponse path) with ⟨logs, chk⟩
      cases chk <;> simp
    · simp only [gcAuthedGet, ensureToken, hf]
      rcases hlr : log_and_raise_for_status (env.dataResponse path) with ⟨logs, chk⟩
      cases chk <;> simp
  · intro tok s2 hne h2
    simp only [get_access_token] at h2
    rcases hlr : log_and_raise_for_status env.tokenResponse with ⟨logs, chk⟩
    rw [hlr] at h2
    cases chk with
    | error e => simp at h2
    | ok u =>
      simp only [Except.ok.injEq, Prod.mk.injEq] at h2
      obtain ⟨htok, hs2⟩ := h2
      refine ⟨?_, ?_, ?_⟩
      · rw [← hs2, htok]
      · rw [← hs2, ← htok]
        exact setHeader_mem s.headers "Authorization" ("Bearer " ++ env.tokenAccess)
      · have hf2 : tokenFalsy s2.access_token = false := by
          rw [← hs2, htok]
          simp [tokenFalsy, hne]
        simp only [gcAuthedGet, ensureToken, hf2]
        rcases hd : log_and_raise_for_status (env.dataResponse path) with ⟨logs2, chk2⟩
        cases chk2 <;> simp

/-- Witness for C2: on a concrete pass the fetch for "b1" does occur, and
it is issued with no `date_from` bound. -/
theorem fetch_issued_without_date_from_witness :
    Event.fetchTxns "b1" none ∈ (sync_transactions demoEnv demoConfig).events ∧
    (none : Option String) = none :=
  ⟨by decide,
    fetch_issued_without_date_from demoEnv demoConfig "b1" none (by decide)⟩

/-- C3 (code bug): the account loop of sync.py (lines 77-99) has no check
for the `"unmapped"` sentinel — contrary to the spec and to the
repository's own test `test_sync_transactions_unmapped_account` — so with
the mapping `acct_x ↦ "unmapped"` and `acct_x` among the requisition's
linked accounts, the pass does call the transaction fetch for `acct_x`. -/
theorem unmapped_account_is_fetched :
    Event.fetchTxns "acct_x" none ∈
      (sync_transactions unmappedEnv unmappedConfig).events := by
  decide

/-- Witness for C4: with the failing submission the concrete pass raises
that error and leaves the stored document, watermark included, unchanged. -/
theorem error_preserves_watermark_witness :
    (sync_transactions failingCreateEnv demoConfig).stored = demoConfig ∧
    (sync_transactions failingCreateEnv demoConfig).stored.last_sync =
      "2023-01-01" ∧
    (sync_transactions failingCreateEnv demoConfig).result =
      .error (.http ⟨500,
        "https://api.ynab.com/v1/budgets/budget1/transactions", "POST", "boom"⟩) :=
  have h := (error_preserves_watermark failingCreateEnv demoConfig).1
    (.http ⟨500, "https://api.ynab.com/v1/budgets/budget1/transactions",
      "POST", "boom"⟩) (by decide)
  ⟨h.1, by rw [h.2]; rfl, (error_preserves_watermark failingCreateEnv demoConfig).2
    "rid" ⟨["b1"]⟩
    (.http ⟨500, "https://api.ynab.com/v1/budgets/budget1/transactions",
      "POST", "boom"⟩)
    (by decide) (by decide) (by decide) (by decide) (by decide)⟩

/-- Witness for C6: the pass over the two accounts returns added = 2,
the sum of the 2 and 0 confirmed identifiers. -/
theorem added_equals_confirmed_sum_witness :
    (SyncResult.mk 2).added =
      (twoAccountConfig.account_mappings.map
        (confirmedCount twoAccountEnv twoAccountConfig.ynab.budget_id
          (Requisition.mk ["b1", "b2"]).accounts)).sum :=
  added_equals_confirmed_sum twoAccountEnv twoAccountConfig "rid"
    ⟨["b1", "b2"]⟩ ⟨2⟩ (by decide) (by decide) (by decide) (by decide)
    (by decide)

/-- Witness for C10: with "bX" absent from the requisition's accounts,
the loop on the single entry ("bX", "yX") emits exactly the warning echo
and otherwise behaves as the empty loop. -/
theorem missing_account_skipped_witness :
    syncLoop demoEnv "budget1" ["b1"] [("bX", "yX")] =
      (Event.echo ("Warning: Bank account " ++ "bX" ++
          " not found in current session")
          :: (syncLoop demoEnv "budget1" ["b1"] []).1,
        (syncLoop demoEnv "budget1" ["b1"] []).2) :=
  missing_account_skipped demoEnv "budget1" ["b1"] "bX" "yX" [] (by decide)

/-- Witness for C8: from a fresh client the operation's first action is
the token POST; the acquisition stores "tok123", sets the Authorization
header, and the subsequent call starts directly with the GET carrying
that header. -/
theorem lazy_token_acquisition_witness :
    (gcAuthedGet demoGCEnv (GCState.init "sid" "skey")
        "accounts/b1/transactions/").1.head? =
      some (.tokenPost (GCState.init "sid" "skey").headers) ∧
    demoGCStateAfter.access_token = some "tok123" ∧
    ("Authorization", "Bearer " ++ "tok123") ∈ demoGCStateAfter.headers ∧
    (gcAuthedGet demoGCEnv demoGCStateAfter
        "accounts/b1/transactions/").1.head? =
      some (.httpGet "accounts/b1/transactions/" demoGCStateAfter.headers) :=
  have h3 := (lazy_token_acquisition demoGCEnv (GCState.init "sid" "skey")
    "accounts/b1/transactions/").2.2 "tok123" demoGCStateAfter
    (by decide) (by decide)
  ⟨(lazy_token_acquisition demoGCEnv (GCState.init "sid" "skey")
      "accounts/b1/transactions/").1 (by decide), h3.1, h3.2.1, h3.2.2⟩
